import Mathlib

/-!
Verification development for the ERA5 interactive cookbook repository.

The repository consists of:
  * `notebooks/02InteractiveVisualization.ipynb` — opens the ARCO ERA-5 Zarr
    store, selects a time slice, regrids the Gaussian-grid data to a uniform
    lat-lon mesh via Delaunay triangulation plus barycentric interpolation,
    wraps the result in labelled arrays, and plots it with GeoViews;
  * `notebooks/Containerfile` — a container build file for the dashboard;
  * a narrative notebook documenting the container build/run/tag/push/pull
    workflow.

We shallowly embed the Python code in Lean.  Floating-point numbers are
modelled as rationals (exact arithmetic); the NaN missing-value marker
produced by `np.where(indices == -1, np.nan, result)` is modelled as `none`
in `Option ℚ`.  The external Delaunay triangulation object is modelled as a
structure carrying the fields the notebook reads (`simplices`, `transform`,
`find_simplex`) together with the library's documented contract that
`find_simplex` returns `-1` or a valid simplex index.
-/

/-- Python's `%` operator on floats/rationals with a positive divisor:
the remainder with the sign of the divisor, `x - y * ⌊x / y⌋`. -/
def pymod (x y : ℚ) : ℚ := x - y * ⌊x / y⌋

/-- `lon_to_360` from cell 44 of `02InteractiveVisualization.ipynb`:
`return ((360 + (dlon % 360)) % 360)`. -/
def lon_to_360 (dlon : ℚ) : ℚ := pymod (360 + pymod dlon 360) 360

lemma pymod_nonneg (x : ℚ) : 0 ≤ pymod x 360 := by
  have h := Int.floor_le (x / 360)
  have h' : (360 : ℚ) * ⌊x / 360⌋ ≤ 360 * (x / 360) := by
    have h360 : (0 : ℚ) < 360 := by norm_num
    exact mul_le_mul_of_nonneg_left h (le_of_lt h360)
  have hx : (360 : ℚ) * (x / 360) = x := by ring
  unfold pymod
  linarith [h', hx.le, hx.ge]

lemma pymod_lt (x : ℚ) : pymod x 360 < 360 := by
  have h := Int.lt_floor_add_one (x / 360)
  have h' : 360 * (x / 360) < 360 * ((⌊x / 360⌋ : ℚ) + 1) := by
    have h360 : (0 : ℚ) < 360 := by norm_num
    exact mul_lt_mul_of_pos_left h h360
  have hx : (360 : ℚ) * (x / 360) = x := by ring
  unfold pymod
  nlinarith [h', hx]

lemma pymod_eq_self (x : ℚ) (h0 : 0 ≤ x) (h1 : x < 360) : pymod x 360 = x := by
  have hfl : ⌊x / 360⌋ = 0 := by
    rw [Int.floor_eq_zero_iff]
    constructor
    · positivity
    · rw [div_lt_one (by norm_num : (0:ℚ) < 360)]
      simpa using h1
  unfold pymod
  rw [hfl]
  push_cast
  ring

lemma pymod_add_360 (r : ℚ) (h0 : 0 ≤ r) (h1 : r < 360) :
    pymod (360 + r) 360 = r := by
  have hdiv : (360 + r) / 360 = r / 360 + (1 : ℤ) := by
    push_cast
    field_simp
    ring
  have hfl : ⌊(360 + r) / 360⌋ = 1 := by
    rw [hdiv, Int.floor_add_int]
    have : ⌊r / 360⌋ = 0 := by
      rw [Int.floor_eq_zero_iff]
      constructor
      · positivity
      · rw [div_lt_one (by norm_num : (0:ℚ) < 360)]
        simpa using h1
    omega
  unfold pymod
  rw [hfl]
  push_cast
  ring

/-- C9: for every input, `lon_to_360` lands in `[0, 360)`, agrees with the
single Python modulus `dlon % 360`, and is idempotent; the outer
add-and-reduce step of `((360 + (dlon % 360)) % 360)` is redundant. -/
theorem lon_to_360_range_simplification_idempotent (dlon : ℚ) :
    0 ≤ lon_to_360 dlon ∧ lon_to_360 dlon < 360 ∧
    lon_to_360 dlon = pymod dlon 360 ∧
    lon_to_360 (lon_to_360 dlon) = lon_to_360 dlon := by
  have h0 : 0 ≤ pymod dlon 360 := pymod_nonneg dlon
  have h1 : pymod dlon 360 < 360 := pymod_lt dlon
  have key : lon_to_360 dlon = pymod dlon 360 := by
    unfold lon_to_360
    exact pymod_add_360 _ h0 h1
  refine ⟨key ▸ h0, key ▸ h1, key, ?_⟩
  rw [key]
  unfold lon_to_360
  rw [pymod_eq_self _ h0 h1, pymod_add_360 _ h0 h1]

/-! ## Data model for the xarray datasets used in notebook 02

A point of the ERA-5 Gaussian grid dataset lives along the `values`
dimension: it has a `longitude` coordinate, a `latitude` coordinate, and
the data values attached to it (one per time step; kept abstract as `α`).
A dataset (after selecting a time slice) is a `time` coordinate list plus
a list of such points. -/

structure DSPoint (α : Type) where
  longitude : ℚ
  latitude : ℚ
  vals : α
deriving DecidableEq, Repr

structure GDS (τ α : Type) where
  time : List τ
  pts : List (DSPoint α)
deriving DecidableEq, Repr

/-- Model of `ds.where(ds.longitude == 0, drop=True)`: keep exactly the
points along the `values` dimension whose longitude coordinate is `0`. -/
def whereLongitudeZero (ds : GDS τ α) : GDS τ α :=
  ⟨ds.time, ds.pts.filter (fun p => p.longitude = 0)⟩

/-- Model of `.assign_coords(longitude=lambda x: x.longitude + 360)`:
shift every point's longitude coordinate by `+360`, data unchanged. -/
def assignLongitudePlus360 (ds : GDS τ α) : GDS τ α :=
  ⟨ds.time, ds.pts.map (fun p => ⟨p.longitude + 360, p.latitude, p.vals⟩)⟩

/-- Model of `xr.concat([ds, extra], dim='values')`: append the points of
the second dataset after those of the first along the `values` dimension. -/
def concatValues (ds extra : GDS τ α) : GDS τ α :=
  ⟨ds.time, ds.pts ++ extra.pts⟩

/-- `mirror_point_at_360` from cell 13 of `02InteractiveVisualization.ipynb`:

    extra_point = (ds.where(ds.longitude == 0, drop=True)
                     .assign_coords(longitude=lambda x: x.longitude + 360))
    return xr.concat([ds, extra_point], dim='values')
-/
def mirror_point_at_360 (ds : GDS τ α) : GDS τ α :=
  let extra_point := assignLongitudePlus360 (whereLongitudeZero ds)
  concatValues ds extra_point

/-- C10: `mirror_point_at_360` only appends data.  Along the `values`
dimension the output starts with the unmodified input points, followed by
exactly the points whose longitude equals `0`, each duplicated with its
longitude coordinate shifted by `+360` and its data values (and latitude)
unchanged; the time coordinate is untouched. -/
theorem mirror_point_at_360_append_only (τ α : Type) (ds : GDS τ α) :
    (mirror_point_at_360 ds).time = ds.time ∧
    (mirror_point_at_360 ds).pts.take ds.pts.length = ds.pts ∧
    (mirror_point_at_360 ds).pts.drop ds.pts.length
      = (ds.pts.filter (fun p => p.longitude = 0)).map
          (fun p => ⟨p.longitude + 360, p.latitude, p.vals⟩) ∧
    ∀ q ∈ (mirror_point_at_360 ds).pts.drop ds.pts.length,
      q.longitude = 360 ∧ ∃ p ∈ ds.pts, p.longitude = 0 ∧
        q.latitude = p.latitude ∧ q.vals = p.vals := by
  refine ⟨rfl, ?_, ?_, ?_⟩
  · simpa [mirror_point_at_360, concatValues] using
      List.take_left ds.pts (assignLongitudePlus360 (whereLongitudeZero ds)).pts
  · simpa [mirror_point_at_360, concatValues, assignLongitudePlus360,
      whereLongitudeZero] using
      List.drop_left ds.pts (assignLongitudePlus360 (whereLongitudeZero ds)).pts
  · intro q hq
    have hq' : q ∈ (ds.pts.filter (fun p => p.longitude = 0)).map
        (fun p => (⟨p.longitude + 360, p.latitude, p.vals⟩ : DSPoint α)) := by
      have hdrop : (mirror_point_at_360 ds).pts.drop ds.pts.length
          = (ds.pts.filter (fun p => p.longitude = 0)).map
              (fun p => (⟨p.longitude + 360, p.latitude, p.vals⟩ : DSPoint α)) := by
        simpa [mirror_point_at_360, concatValues, assignLongitudePlus360,
          whereLongitudeZero] using
          List.drop_left ds.pts (assignLongitudePlus360 (whereLongitudeZero ds)).pts
      rw [hdrop] at hq
      exact hq
    rcases List.mem_map.mp hq' with ⟨p, hp, hpq⟩
    have hp0 : p.longitude = 0 := by
      have := List.mem_filter.mp hp
      simpa using this.2
    refine ⟨?_, p, (List.mem_filter.mp hp).1, hp0, ?_, ?_⟩
    · rw [← hpq]
      simp [hp0]
    · rw [← hpq]
    · rw [← hpq]

/-- Concrete dataset used to witness the mirror theorem: two time steps,
one point on the 0-meridian and one off it. -/
def ds0 : GDS ℕ ℚ := ⟨[0, 1], [⟨0, 10, 5⟩, ⟨90, 45, 7⟩]⟩

/-- Witness for C10 at `ds0`: the appended part is the single 0-longitude
point, re-coordinatised at longitude 360 with its data unchanged. -/
theorem mirror_point_at_360_append_only_witness :
    ((⟨360, 10, 5⟩ : DSPoint ℚ) ∈ (mirror_point_at_360 ds0).pts.drop ds0.pts.length) ∧
    ((⟨360, 10, 5⟩ : DSPoint ℚ).longitude = 360 ∧ ∃ p ∈ ds0.pts, p.longitude = 0 ∧
      (⟨360, 10, 5⟩ : DSPoint ℚ).latitude = p.latitude ∧
      (⟨360, 10, 5⟩ : DSPoint ℚ).vals = p.vals) :=
  ⟨by simp [ds0, mirror_point_at_360, concatValues, assignLongitudePlus360,
      whereLongitudeZero],
   (mirror_point_at_360_append_only ℕ ℚ ds0).2.2.2 ⟨360, 10, 5⟩
     (by simp [ds0, mirror_point_at_360, concatValues, assignLongitudePlus360,
        whereLongitudeZero])⟩

/-! ## The Delaunay triangulation object and `interpolate`

`scipy.spatial.Delaunay` is an external library object.  We model exactly
the interface the notebook reads: for a 2-D triangulation,
  * `simplices s` — the three vertex (point) indices of simplex `s`;
  * `transform s` — the affine transform record of simplex `s`: rows 0
    and 1 are the rows of `T_inv`, row 2 is the offset vector `r`;
  * `find_simplex p` — the library's simplex search, returning `-1` for a
    query point outside the convex hull of the source samples and the
    index of a containing simplex otherwise (the library's documented
    contract, recorded as `find_simplex_range`).

numpy indexing with a possibly negative index (as happens with
`tri.transform[indices, ...]` when `indices` contains `-1`) wraps around:
index `-1` denotes the last entry.  `npIndex` models this. -/

structure Triangulation where
  nsimplex : ℕ
  simplices : ℕ → Fin 3 → ℕ
  transform : ℕ → Fin 3 → Fin 2 → ℚ
  find_simplex : ℚ × ℚ → ℤ
  find_simplex_range : ∀ p, -1 ≤ find_simplex p ∧ find_simplex p < (nsimplex : ℤ)

/-- numpy index resolution for an index `i` with `-n ≤ i < n`: negative
indices count from the end. -/
def npIndex (n : ℕ) (i : ℤ) : ℕ := (i.emod (n : ℤ)).toNat

/-- `np.stack([x, y], axis=1)` on two equal-length 1-D arrays: the list of
coordinate pairs. -/
def npStackPairs (x y : List ℚ) : List (ℚ × ℚ) := List.zip x y

/-- `build_triangulation` from cell 13: stack the two coordinate arrays
into an `(n, 2)` grid and hand it to the external Delaunay routine
(abstracted as the function argument `delaunay`). -/
def build_triangulation (delaunay : List (ℚ × ℚ) → Triangulation)
    (x y : List ℚ) : Triangulation :=
  delaunay (npStackPairs x y)

/-- The barycentric coordinate vector computed inside `interpolate` for
simplex `s` and query point `p`:

    T_inv = tri.transform[indices, :ndim, :]
    r = tri.transform[indices, ndim, :]
    c = np.einsum('...ij,...j', T_inv, mesh - r)
    c = np.concatenate([c, 1 - c.sum(axis=-1, keepdims=True)], axis=-1)
-/
def bary_c (tri : Triangulation) (s : ℕ) (p : ℚ × ℚ) : Fin 3 → ℚ :=
  let d0 := p.1 - tri.transform s 2 0
  let d1 := p.2 - tri.transform s 2 1
  let c0 := tri.transform s 0 0 * d0 + tri.transform s 0 1 * d1
  let c1 := tri.transform s 1 0 * d0 + tri.transform s 1 1 * d1
  ![c0, c1, 1 - (c0 + c1)]

/-- The value `interpolate` computes at one query point `p` of the mesh for
time index `t`:

    indices = tri.find_simplex(mesh)
    ...
    result = np.einsum('...i,...i', data[:, tri.simplices[indices]], c)
    return np.where(indices == -1, np.nan, result)

`none` models NaN, the missing-value marker. -/
def interpolatePoint (data : ℕ → ℕ → ℚ) (tri : Triangulation) (t : ℕ)
    (p : ℚ × ℚ) : Option ℚ :=
  let idx := tri.find_simplex p
  let s := npIndex tri.nsimplex idx
  let result := ∑ i : Fin 3, data t (tri.simplices s i) * bary_c tri s p i
  if idx = -1 then none else some result

/-- `interpolate` from cell 13, applied over a (flattened) query mesh at
time index `t`. -/
def interpolate (data : ℕ → ℕ → ℚ) (tri : Triangulation)
    (mesh : List (ℚ × ℚ)) (t : ℕ) : List (Option ℚ) :=
  mesh.map (interpolatePoint data tri t)

/-- C1: for every query point of the mesh, `interpolate` returns the
missing-value marker (`none`, modelling NaN) exactly when the simplex
search reports the point outside the convex hull (`find_simplex = -1`),
and a numeric value (`some`) exactly when it is inside. -/
theorem interpolate_out_of_hull_marker (data : ℕ → ℕ → ℚ) (tri : Triangulation)
    (mesh : List (ℚ × ℚ)) (t : ℕ) (p : ℚ × ℚ) (hp : p ∈ mesh) :
    (interpolatePoint data tri t p = none ↔ tri.find_simplex p = -1) ∧
    ((interpolatePoint data tri t p).isSome = true ↔ tri.find_simplex p ≠ -1) ∧
    interpolatePoint data tri t p ∈ interpolate data tri mesh t := by
  refine ⟨?_, ?_, List.mem_map_of_mem (interpolatePoint data tri t) hp⟩
  · unfold interpolatePoint
    by_cases h : tri.find_simplex p = -1 <;> simp [h]
  · unfold interpolatePoint
    by_cases h : tri.find_simplex p = -1 <;> simp [h]

/-- Concrete data for witnesses: value at point index `k` is `k`. -/
def dataW : ℕ → ℕ → ℚ := fun _ k => (k : ℚ)

/-- Concrete triangulation used for in-hull witnesses: one simplex with
vertices `0, 1, 2`, `T_inv` the identity, offset `r = 0`, and a simplex
search that always reports simplex `0`. -/
def triW : Triangulation where
  nsimplex := 1
  simplices := fun _ => ![0, 1, 2]
  transform := fun _ => ![![1, 0], ![0, 1], ![0, 0]]
  find_simplex := fun _ => 0
  find_simplex_range := by intro p; exact ⟨by norm_num, by norm_num⟩

/-- Concrete triangulation whose simplex search always reports
out-of-hull (`-1`), used for the out-of-hull witness. -/
def triOut : Triangulation where
  nsimplex := 1
  simplices := fun _ => ![0, 1, 2]
  transform := fun _ => ![![1, 0], ![0, 1], ![0, 0]]
  find_simplex := fun _ => -1
  find_simplex_range := by intro p; exact ⟨by norm_num, by norm_num⟩

/-- Witness for C1 at a mesh containing `(400, 0)` with `triOut`: the
query point is reported outside the hull and the result is the marker. -/
theorem interpolate_out_of_hull_marker_witness :
    ((400, 0) ∈ [((400 : ℚ), (0 : ℚ))]) ∧
    (interpolatePoint dataW triOut 0 (400, 0) = none ↔
      triOut.find_simplex (400, 0) = -1) :=
  ⟨List.mem_singleton.mpr rfl,
   (interpolate_out_of_hull_marker dataW triOut [(400, 0)] 0 (400, 0)
     (List.mem_singleton.mpr rfl)).1⟩

/-- Spec-side definition for the refinement claim, written from the spec's
words rather than from the code: the barycentric weights of a query point
with respect to simplex `s` are "the first ndim weights from `T_inv`
applied to `(point - r)`, the last weight being one minus their sum". -/
def specBarycentricWeights (tri : Triangulation) (s : ℕ) (p : ℚ × ℚ) :
    Fin 3 → ℚ := fun i =>
  if (i : ℕ) < 2 then
    ∑ j : Fin 2, tri.transform s i.castSucc j * ((![p.1, p.2]) j - tri.transform s 2 j)
  else
    1 - ∑ k : Fin 2, ∑ j : Fin 2,
      tri.transform s k.castSucc j * ((![p.1, p.2]) j - tri.transform s 2 j)

/-- Spec-side definition: the barycentric interpolation of the data at a
query point contained in simplex `s` is the weighted sum of the data
values at the vertices of that simplex, weighted by the barycentric
coordinates of the point. -/
def specBarycentricValue (data : ℕ → ℕ → ℚ) (tri : Triangulation) (t : ℕ)
    (s : ℕ) (p : ℚ × ℚ) : ℚ :=
  ∑ i : Fin 3, specBarycentricWeights tri s p i * data t (tri.simplices s i)

lemma bary_c_eq_specWeights (tri : Triangulation) (s : ℕ) (p : ℚ × ℚ)
    (i : Fin 3) : bary_c tri s p i = specBarycentricWeights tri s p i := by
  fin_cases i <;>
    simp [bary_c, specBarycentricWeights, Fin.sum_univ_two, Fin.castSucc,
      Fin.castAdd, Fin.castLE]

/-- C2: for every query point that the simplex search places in a simplex
`s` (i.e. inside the convex hull), `interpolate` returns exactly the
barycentric interpolation of the data over the vertices of `s` described
by the spec. -/
theorem interpolate_eq_barycentric (data : ℕ → ℕ → ℚ) (tri : Triangulation)
    (t : ℕ) (p : ℚ × ℚ) (s : ℕ) (hs : tri.find_simplex p = (s : ℤ)) :
    interpolatePoint data tri t p = some (specBarycentricValue data tri t s p) := by
  have hrange := tri.find_simplex_range p
  have hslt : (s : ℤ) < (tri.nsimplex : ℤ) := hs ▸ hrange.2
  have hne : tri.find_simplex p ≠ -1 := by
    rw [hs]
    omega
  have hidx : npIndex tri.nsimplex (tri.find_simplex p) = s := by
    rw [hs]
    unfold npIndex
    show (((s : ℤ) % (tri.nsimplex : ℤ)).toNat = s)
    rw [Int.emod_eq_of_lt (by positivity) hslt]
    exact Int.toNat_natCast s
  unfold interpolatePoint
  rw [if_neg hne, hidx]
  unfold specBarycentricValue
  congr 1
  refine Finset.sum_congr rfl (fun i _ => ?_)
  rw [bary_c_eq_specWeights]
  ring

/-- Witness for C2 with the concrete triangulation `triW` at query point
`(0, 0)`: the simplex search reports simplex `0` and the interpolated
value is the spec's barycentric combination. -/
theorem interpolate_eq_barycentric_witness :
    triW.find_simplex (0, 0) = ((0 : ℕ) : ℤ) ∧
    interpolatePoint dataW triW 0 (0, 0) =
      some (specBarycentricValue dataW triW 0 0 (0, 0)) :=
  ⟨rfl, interpolate_eq_barycentric dataW triW 0 (0, 0) 0 rfl⟩

/-- C8: the barycentric weight vector built inside `interpolate` always
sums to exactly `1` (its last component is one minus the sum of the
others); consequently the value at every in-hull query point is an affine
combination of the data values at the vertices of the containing simplex. -/
theorem bary_weights_sum_one_affine (data : ℕ → ℕ → ℚ) (tri : Triangulation)
    (t : ℕ) (p : ℚ × ℚ) (s : ℕ) (h : tri.find_simplex p ≠ -1) :
    (∑ i : Fin 3, bary_c tri s p i) = 1 ∧
    ∃ w : Fin 3 → ℚ, (∑ i : Fin 3, w i) = 1 ∧
      interpolatePoint data tri t p =
        some (∑ i : Fin 3, w i *
          data t (tri.simplices (npIndex tri.nsimplex (tri.find_simplex p)) i)) := by
  constructor
  · simp [bary_c, Fin.sum_univ_three]
  · refine ⟨bary_c tri (npIndex tri.nsimplex (tri.find_simplex p)) p, ?_, ?_⟩
    · simp [bary_c, Fin.sum_univ_three]
    · unfold interpolatePoint
      rw [if_neg h]
      congr 1
      refine Finset.sum_congr rfl (fun i _ => ?_)
      ring

/-- Witness for C8 with `triW` at `(0, 0)`: the weights of simplex `0` sum
to `1` and the returned value is the corresponding affine combination. -/
theorem bary_weights_sum_one_affine_witness :
    (∑ i : Fin 3, bary_c triW 0 (0, 0) i) = 1 ∧
    ∃ w : Fin 3 → ℚ, (∑ i : Fin 3, w i) = 1 ∧
      interpolatePoint dataW triW 0 (0, 0) =
        some (∑ i : Fin 3, w i *
          dataW 0 (triW.simplices (npIndex triW.nsimplex (triW.find_simplex (0, 0))) i)) :=
  bary_weights_sum_one_affine dataW triW 0 (0, 0) 0 (by norm_num [triW])

/-- C7: the four operations defined by the repository are deterministic
functions of their inputs — equal inputs always yield equal outputs, with
no dependence on hidden shared state (the embedding is purely
functional, mirroring the single-threaded, cell-local Python code). -/
theorem repo_operations_deterministic :
    (∀ (τ α : Type) (d1 d2 : GDS τ α), d1 = d2 →
      mirror_point_at_360 d1 = mirror_point_at_360 d2) ∧
    (∀ (dl : List (ℚ × ℚ) → Triangulation) (x y x2 y2 : List ℚ),
      x = x2 → y = y2 →
      build_triangulation dl x y = build_triangulation dl x2 y2) ∧
    (∀ (data data2 : ℕ → ℕ → ℚ) (tri tri2 : Triangulation)
      (mesh mesh2 : List (ℚ × ℚ)) (t t2 : ℕ),
      data = data2 → tri = tri2 → mesh = mesh2 → t = t2 →
      interpolate data tri mesh t = interpolate data2 tri2 mesh2 t2) ∧
    (∀ a b : ℚ, a = b → lon_to_360 a = lon_to_360 b) := by
  refine ⟨?_, ?_, ?_, ?_⟩
  · intro τ α d1 d2 h
    rw [h]
  · intro dl x y x2 y2 hx hy
    rw [hx, hy]
  · intro data data2 tri tri2 mesh mesh2 t t2 h1 h2 h3 h4
    rw [h1, h2, h3, h4]
  · intro a b h
    rw [h]

/-- Witness for C7: each determinism conjunct applied at concrete inputs. -/
theorem repo_operations_deterministic_witness :
    mirror_point_at_360 ds0 = mirror_point_at_360 ds0 ∧
    build_triangulation (fun _ => triW) [0, 1] [0, 1]
      = build_triangulation (fun _ => triW) [0, 1] [0, 1] ∧
    interpolate dataW triW [(0, 0)] 0 = interpolate dataW triW [(0, 0)] 0 ∧
    lon_to_360 20 = lon_to_360 20 :=
  ⟨repo_operations_deterministic.1 ℕ ℚ ds0 ds0 rfl,
   repo_operations_deterministic.2.1 (fun _ => triW) [0, 1] [0, 1] [0, 1] [0, 1] rfl rfl,
   repo_operations_deterministic.2.2.1 dataW dataW triW triW [(0, 0)] [(0, 0)] 0 0
     rfl rfl rfl rfl,
   repo_operations_deterministic.2.2.2 20 20 rfl⟩

/-! ## The regridding target mesh (cells 17 and 19)

    longitude = np.linspace(0, 360, num=360*4+1)
    latitude = np.linspace(-90, 90, num=180*4+1)
    ...
    da_msl = xr.DataArray(data=grid_mesh_msl,
                dims=["time", "longitude", "latitude"],
                coords=[('time', msl93.time.data), ('longitude', longitude),
                        ('latitude', latitude)], name='msl')
-/

/-- `np.linspace a b num`: `num` evenly spaced samples from `a` to `b`
inclusive. -/
def linspace (a b : ℚ) (num : ℕ) : List ℚ :=
  (List.range num).map (fun i : ℕ => a + (b - a) * (i : ℚ) / ((num : ℚ) - 1))

/-- The target longitude axis of the regrid, `np.linspace(0, 360, 360*4+1)`. -/
def longitude : List ℚ := linspace 0 360 (360 * 4 + 1)

/-- The target latitude axis of the regrid, `np.linspace(-90, 90, 180*4+1)`. -/
def latitude : List ℚ := linspace (-90) 90 (180 * 4 + 1)

/-- The labelled result array built in cell 19: dimension names, the time
coordinate taken from the (mirrored) selected slice, and the two target
axes; the regridded payload is kept abstract as `δ`. -/
structure DataArray (τ δ : Type) where
  name : String
  data : δ
  dims : List String
  timeCoord : List τ
  lonCoord : List ℚ
  latCoord : List ℚ

/-- The `xr.DataArray(...)` construction of cell 19 applied to a regridded
payload `grid` and the mirrored selected slice `ds` (`msl93` / `t2m93`). -/
def regridded_dataarray (name : String) (grid : δ) (ds : GDS τ α) :
    DataArray τ δ :=
  ⟨name, grid, ["time", "longitude", "latitude"],
   (mirror_point_at_360 ds).time, longitude, latitude⟩

lemma linspace_getD (a b : ℚ) (num i : ℕ) (h : i < num) :
    (linspace a b num).getD i 0 = a + (b - a) * i / ((num : ℚ) - 1) := by
  unfold linspace
  rw [List.getD_eq_getElem?_getD, List.getElem?_map, List.getElem?_range h]
  rfl

/-- C6: the regridding target is a uniform lat-lon mesh — 1441 evenly
spaced longitudes covering `[0, 360]` and 721 evenly spaced latitudes
covering `[-90, 90]`, both at 0.25-degree spacing; the result array is
indexed time × longitude × latitude and its time coordinate equals the
time coordinate of the selected input slice. -/
theorem regrid_target_mesh (i j : ℕ) (hi : i + 1 < 1441) (hj : j + 1 < 721)
    (τ α δ : Type) (name : String) (grid : δ) (ds : GDS τ α) :
    longitude.length = 1441 ∧ latitude.length = 721 ∧
    longitude.getD 0 0 = 0 ∧ longitude.getD 1440 0 = 360 ∧
    latitude.getD 0 0 = -90 ∧ latitude.getD 720 0 = 90 ∧
    longitude.getD (i + 1) 0 - longitude.getD i 0 = 1 / 4 ∧
    latitude.getD (j + 1) 0 - latitude.getD j 0 = 1 / 4 ∧
    (regridded_dataarray name grid ds).dims = ["time", "longitude", "latitude"] ∧
    (regridded_dataarray name grid ds).lonCoord = longitude ∧
    (regridded_dataarray name grid ds).latCoord = latitude ∧
    (regridded_dataarray name grid ds).timeCoord = ds.time := by
  have hlon : ∀ k : ℕ, k < 1441 →
      longitude.getD k 0 = (k : ℚ) / 4 := by
    intro k hk
    have := linspace_getD 0 360 (360 * 4 + 1) k (by omega)
    unfold longitude
    rw [this]
    norm_num
    ring
  have hlat : ∀ k : ℕ, k < 721 →
      latitude.getD k 0 = -90 + (k : ℚ) / 4 := by
    intro k hk
    have := linspace_getD (-90) 90 (180 * 4 + 1) k (by omega)
    unfold latitude
    rw [this]
    norm_num
    ring
  refine ⟨?_, ?_, ?_, ?_, ?_, ?_, ?_, ?_, rfl,
    by simp [regridded_dataarray], by simp [regridded_dataarray], ?_⟩
  · simp [longitude, linspace]
  · simp [latitude, linspace]
  · rw [hlon 0 (by omega)]
    norm_num
  · rw [hlon 1440 (by omega)]
    norm_num
  · rw [hlat 0 (by omega)]
    norm_num
  · rw [hlat 720 (by omega)]
    norm_num
  · rw [hlon (i + 1) hi, hlon i (by omega)]
    push_cast
    ring
  · rw [hlat (j + 1) hj, hlat j (by omega)]
    push_cast
    ring
  · show (mirror_point_at_360 ds).time = ds.time
    rfl

/-- Witness for C6 at `i = j = 0` with a concrete dataset: the first
spacing on each axis is 0.25 degrees and the result's time coordinate is
the input's. -/
theorem regrid_target_mesh_witness :
    (0 : ℕ) + 1 < 1441 ∧ (0 : ℕ) + 1 < 721 ∧
    longitude.getD 1 0 - longitude.getD 0 0 = 1 / 4 ∧
    latitude.getD 1 0 - latitude.getD 0 0 = 1 / 4 ∧
    (regridded_dataarray "msl" () ds0).timeCoord = ds0.time := by
  have h := regrid_target_mesh 0 0 (by omega) (by omega) ℕ ℚ Unit "msl" () ds0
  exact ⟨by omega, by omega, h.2.2.2.2.2.2.1, h.2.2.2.2.2.2.2.1, h.2.2.2.2.2.2.2.2.2.2.2⟩

/-! ## The container build file `notebooks/Containerfile`

The file is embedded instruction by instruction, in source order. -/

inductive Instr : Type
  | fromImage (image : String)
  | user (name : String)
  | run (cmd : String)
  | workdir (dir : String)
  | expose (port : ℕ)
  | startCmd (args : List String)
deriving DecidableEq, Repr

/-- The instruction sequence of `notebooks/Containerfile`, in order. -/
def containerfile : List Instr :=
  [ .fromImage "docker.io/mambaorg/micromamba:latest",
    .user "root",
    .run "apt-get update && apt-get install -y git-all",
    .workdir "/home/mambauser/app",
    .run "git clone https://github.com/ProjectPythia/ERA5_interactive-cookbook.git",
    .run "micromamba env create -f ERA5_interactive-cookbook/environment.yml",
    .run "mv ERA5_interactive-cookbook/notebooks/04_dashboard.ipynb .",
    .run "rm -r ERA5_interactive-cookbook/",
    .expose 5006,
    .user "mambauser",
    .startCmd ["panel", "serve", "04_dashboard.ipynb",
               "--allow-websocket-origin=*", "--autoreload"] ]

/-- The build phases named by the spec, in the order the spec lists them. -/
inductive Phase : Type
  | baseImage
  | pkgInstall
  | sourceRetrieval
  | depInstall
  | fileRelocation
  | cleanup
  | exposePort
  | startupCommand
deriving DecidableEq, Repr

/-- Classify each instruction of the build file into the spec's phases.
`USER` and `WORKDIR` are metadata directives (user switching, working
directory) and belong to none of the listed image-layer phases. -/
def phase : Instr → Option Phase
  | .fromImage _ => some .baseImage
  | .user _ => none
  | .workdir _ => none
  | .expose _ => some .exposePort
  | .startCmd _ => some .startupCommand
  | .run c =>
    if c = "apt-get update && apt-get install -y git-all" then some .pkgInstall
    else if c = "git clone https://github.com/ProjectPythia/ERA5_interactive-cookbook.git" then
      some .sourceRetrieval
    else if c = "micromamba env create -f ERA5_interactive-cookbook/environment.yml" then
      some .depInstall
    else if c = "mv ERA5_interactive-cookbook/notebooks/04_dashboard.ipynb ." then
      some .fileRelocation
    else if c = "rm -r ERA5_interactive-cookbook/" then some .cleanup
    else none

/-- C4: the build file is a linear instruction sequence whose image-layer
phases occur in exactly the order the spec lists: base image selection,
package installation, source retrieval, dependency installation, file
relocation and cleanup, exposed network port, startup command; every
remaining instruction is a user-switch or working-directory directive. -/
theorem containerfile_phase_order :
    containerfile.filterMap phase =
      [Phase.baseImage, Phase.pkgInstall, Phase.sourceRetrieval,
       Phase.depInstall, Phase.fileRelocation, Phase.cleanup,
       Phase.exposePort, Phase.startupCommand] ∧
    ∀ ins ∈ containerfile, phase ins = none →
      (∃ n, ins = Instr.user n) ∨ (∃ d, ins = Instr.workdir d) := by
  constructor
  · rfl
  · intro ins hins hnone
    fin_cases hins <;> simp_all [phase]

/-- Ports exposed by the build file. -/
def exposedPorts : List ℕ :=
  containerfile.filterMap (fun ins =>
    match ins with
    | .expose p => some p
    | _ => none)

/-- Startup commands declared by the build file. -/
def startupCommands : List (List String) :=
  containerfile.filterMap (fun ins =>
    match ins with
    | .startCmd args => some args
    | _ => none)

/-- The notebook applications named in the startup commands (arguments
ending in `.ipynb`). -/
def servedNotebooks : List String :=
  (startupCommands.flatten).filter (fun a => a.takeRight 6 = ".ipynb")

/-- The environment variables passed to the container at runtime, from the
documented run command
`docker run -e ENV_NAME=ERA5_interactive -p 5006:5006 ncote/pythia-era5-viz`. -/
def dockerRunEnvFlags : List (String × String) := [("ENV_NAME", "ERA5_interactive")]

/-- C5: the dashboard container exposes exactly the single port 5006, its
single startup command serves exactly the one notebook application
`04_dashboard.ipynb`, and its runtime configuration consists of exactly
one environment variable, `ENV_NAME`, selecting the environment to
activate. -/
theorem dashboard_container_surface :
    exposedPorts = [5006] ∧
    startupCommands.length = 1 ∧
    servedNotebooks = ["04_dashboard.ipynb"] ∧
    dockerRunEnvFlags.map Prod.fst = ["ENV_NAME"] := by
  refine ⟨rfl, rfl, ?_, rfl⟩
  decide

/-! ## The data-flow order of notebook 02

Each code statement of `02InteractiveVisualization.ipynb` is tagged with
the data-flow step it performs, in source (execution) order:

  * cell 10: `xr.open_zarr(...)`                          — open dataset
  * cell 15: `msl.sel(time=slice(...)).compute().pipe(mirror_point_at_360)`
             and the same for `t2m`                       — select/crop
  * cell 17: `build_triangulation(...)`                   — triangulate
  *          `longitude/latitude/mesh = ...`              — other (mesh setup)
  *          `interpolate(msl93.values, tri, mesh)`       — interpolate
  *          `interpolate(t2m93.values, tri, mesh)`       — interpolate
  * cell 19: `xr.DataArray(...)` twice                    — construct array
  * cell 21: unit conversions                             — other
  * cells 25/27/28: backend and projection setup          — other
  * cell 31: geoviews dataset/contour construction        — other
  * cell 33: contour plot display                         — plot
  * cell 36: geoviews dataset over all times              — other
  * cell 38: contour plot display                         — plot
  * cell 44: `t2m_cropped = t2m.where(cond, drop=True)`   — select/crop
  * cell 45: quadmesh construction                        — other
  * cell 46: quadmesh plot display                        — plot
  * cell 49: rasterize                                    — other
  * cell 50: rasterized plot display                      — plot
-/

inductive NBStep : Type
  | openDataset
  | selectCrop
  | triangulate
  | interpolateStep
  | constructArray
  | plotStep
  | other
deriving DecidableEq, Repr

/-- The tagged statements of notebook 02, in execution order. -/
def notebookSteps : List NBStep :=
  [ .openDataset,
    .selectCrop, .selectCrop,
    .triangulate, .other, .interpolateStep, .interpolateStep,
    .constructArray, .constructArray,
    .other,
    .other, .other, .other,
    .other, .plotStep,
    .other, .plotStep,
    .selectCrop,
    .other, .plotStep,
    .other, .plotStep ]

/-- The ordering property asserted by the claim: every select/crop step of
the notebook precedes every triangulation and interpolation step. -/
def everySelectCropPrecedesRegrid : Prop :=
  ∀ i j : Fin notebookSteps.length,
    notebookSteps.get i = NBStep.selectCrop →
    (notebookSteps.get j = NBStep.triangulate ∨
      notebookSteps.get j = NBStep.interpolateStep) →
    (i : ℕ) < (j : ℕ)

/-- Counterexample for C3: the claim is false on the notebook — the crop
`t2m_cropped = t2m.where(cond, drop=True)` (cell 44, step index 17) comes
after the interpolation steps (cell 17, step indices 5 and 6). -/
theorem notebook_select_after_interpolate : ¬ everySelectCropPrecedesRegrid := by
  intro h
  have := h ⟨17, by decide⟩ ⟨5, by decide⟩ (by decide) (Or.inr (by decide))
  exact absurd this (by decide)

/-- C3 (amended): the main regridding data flow is linear and in order —
open dataset, then select/crop, then triangulate, then interpolate, then
construct the result array, then plot — but one additional select/crop of
the already-regridded temperature array occurs after the interpolation
steps (and after the first plots), before the quadmesh plots. -/
theorem notebook_flow_order :
    notebookSteps.indexOf NBStep.openDataset <
      notebookSteps.indexOf NBStep.selectCrop ∧
    notebookSteps.indexOf NBStep.selectCrop <
      notebookSteps.indexOf NBStep.triangulate ∧
    notebookSteps.indexOf NBStep.triangulate <
      notebookSteps.indexOf NBStep.interpolateStep ∧
    notebookSteps.indexOf NBStep.interpolateStep <
      notebookSteps.indexOf NBStep.constructArray ∧
    notebookSteps.indexOf NBStep.constructArray <
      notebookSteps.indexOf NBStep.plotStep ∧
    (∃ k : Fin notebookSteps.length,
      notebookSteps.get k = NBStep.selectCrop ∧
      notebookSteps.indexOf NBStep.interpolateStep < (k : ℕ) ∧
      (∃ m : Fin notebookSteps.length, (k : ℕ) < (m : ℕ) ∧
        notebookSteps.get m = NBStep.plotStep)) := by
  refine ⟨by decide, by decide, by decide, by decide, by decide, ?_⟩
  exact ⟨⟨17, by decide⟩, by decide, by decide,
    ⟨⟨19, by decide⟩, by decide, by decide⟩⟩

/-- Witness for C4 at the concrete instruction `USER root`: it is in the
build file, carries no image-layer phase, and is a user-switch directive. -/
theorem containerfile_phase_order_witness :
    (Instr.user "root" ∈ containerfile ∧ phase (Instr.user "root") = none) ∧
    ((∃ n, Instr.user "root" = Instr.user n) ∨
      (∃ d, Instr.user "root" = Instr.workdir d)) :=
  ⟨⟨by simp [containerfile], rfl⟩,
   containerfile_phase_order.2 (Instr.user "root") (by simp [containerfile]) rfl⟩
